import Mathlib

/-!
Verification of the Emotion-Evaluator review-scoring pipeline.

The repository has two source files with near-identical logic:
`src/scripts/sentiment_analysis.py` (the batch CLI variant, `analyze_sentiment`)
and `src/scripts/gradio_sentiment_demo.py` (the interactive variant,
`classify_reviews`).  Both read a semicolon-delimited CSV with a `review`
column, validate it, run a pretrained sentiment classifier over the column,
and write a two-column comma-delimited CSV of reviews and scores.

The embedding below models a pandas cell, a dataframe as an ordered list of
named columns, the POSIX path helpers the scripts use, and the two entry
points as functions from an oracle environment (file-system tests, CSV
parsing, model loading, inference and CSV writing, each of which may fail)
to an outcome paired with a trace of file-content and model effects in
program order.
-/

namespace EmoEval

/-- A pandas cell of the `review` column: `NaN` (null), a string, or another
scalar (e.g. a number parsed from the CSV); numeric values are carried as
rationals. -/
inductive Cell
  | null
  | str (s : String)
  | num (q : ℚ)
  deriving DecidableEq

/-- The `pd.isnull` test on one cell: true exactly for `NaN`. -/
def Cell.isnull : Cell → Bool
  | .null => true
  | _ => false

/-- Python `str.strip()` on the character list of a string: drop leading and
trailing whitespace. -/
def pyStrip (l : List Char) : List Char :=
  ((l.dropWhile Char.isWhitespace).reverse.dropWhile Char.isWhitespace).reverse

/-- The per-cell content check of `classify_reviews`
(`isinstance(review, str) and review.strip()`): the cell is a string whose
stripped form is non-empty. -/
def Cell.isValidText : Cell → Bool
  | .str s => !(pyStrip s.data).isEmpty
  | _ => false

/-- A dataframe: named columns in order, each an ordered list of cells. -/
structure DataFrame where
  cols : List (String × List Cell)
  deriving DecidableEq

/-- `df.columns`: the column names in order. -/
def DataFrame.columns (df : DataFrame) : List String :=
  df.cols.map Prod.fst

/-- `df[name]`: the cells of the first column named `name` (`[]` if absent). -/
def DataFrame.get (df : DataFrame) (name : String) : List Cell :=
  match df.cols.find? (fun c => c.fst == name) with
  | some c => c.snd
  | none => []

/-- `df[name] = vals`: replace the column if present, else append it. -/
def DataFrame.setCol (df : DataFrame) (name : String) (vals : List Cell) : DataFrame :=
  if df.columns.contains name then
    ⟨df.cols.map (fun c => if c.fst == name then (c.fst, vals) else c)⟩
  else
    ⟨df.cols ++ [(name, vals)]⟩

/-- `df[[n1, n2, ...]]`: the sub-frame with exactly the named columns. -/
def DataFrame.select (df : DataFrame) (names : List String) : DataFrame :=
  ⟨names.map (fun n => (n, df.get n))⟩

/-- One classifier result.  The external contract returns a dict per input
holding at least a confidence score; every variant discards the label, so
only the score is modelled. -/
structure ClsResult where
  score : ℚ
  deriving DecidableEq

/-- One `DataFrame.to_csv(path, index=False)` call: the frame written, the
field separator (the pandas default `","` at every call site) and whether
the index is written. -/
structure WriteCall where
  frame : DataFrame
  sep : String
  index : Bool
  deriving DecidableEq

/-- File-content and model effects of one run, in program order. -/
inductive Event
  | readInput
  | loadModel (modelId : String)
  | runInference
  | writeOutput (path : String) (w : WriteCall)
  deriving DecidableEq

/-- Whether the event is an output write. -/
def Event.isWrite : Event → Bool
  | .writeOutput _ _ => true
  | _ => false

/-- How `analyze_sentiment` ends: a printed error message followed by
`return`, an uncaught exception, or normal completion with the output
path. -/
inductive Outcome
  | earlyReturn (msg : String)
  | raised (msg : String)
  | completed (path : String)
  deriving DecidableEq

/-- Whether the outcome is an uncaught exception. -/
def Outcome.raises : Outcome → Bool
  | .raised _ => true
  | _ => false

/-- Whether the outcome is a printed message followed by a normal return. -/
def Outcome.printsAndReturns : Outcome → Bool
  | .earlyReturn _ => true
  | _ => false

/-- How `classify_reviews` ends: a returned `(file, status)` pair, or an
uncaught exception escaping the callback. -/
inductive GrOutcome
  | ret (file : Option String) (status : String)
  | raised (msg : String)
  deriving DecidableEq

/-- Whether the callback returned a `(file, status)` pair. -/
def GrOutcome.isReturn : GrOutcome → Bool
  | .ret _ _ => true
  | _ => false

/-- Whether the callback raised past the UI boundary. -/
def GrOutcome.raises : GrOutcome → Bool
  | .raised _ => true
  | _ => false

/-- Index of the last occurrence of `c` in `l`, if any. -/
def rlast (c : Char) : List Char → Option Nat
  | [] => none
  | x :: xs =>
    match rlast c xs with
    | some j => some (j + 1)
    | none => if x = c then some 0 else none

/-- Python `s.rfind(c)`: index of the last occurrence, `-1` if absent. -/
def pyRfind (c : Char) (l : List Char) : Int :=
  match rlast c l with
  | some i => (i : Int)
  | none => -1

/-- `os.path.basename`: everything after the last `/`. -/
def basename (p : String) : String :=
  String.mk (p.data.drop (pyRfind '/' p.data + 1).toNat)

/-- Drop trailing `/` characters (`head.rstrip(sep)`). -/
def rstripSlashes (l : List Char) : List Char :=
  (l.reverse.dropWhile (fun c => c = '/')).reverse

/-- `os.path.dirname`: the prefix up to the last `/`, with trailing slashes
stripped unless the prefix is all slashes. -/
def dirname (p : String) : String :=
  let head := p.data.take (pyRfind '/' p.data + 1).toNat
  if head.isEmpty || head.all (fun c => c = '/') then String.mk head
  else String.mk (rstripSlashes head)

/-- `os.path.splitext(p)[0]`: the path without its extension.  The split
happens at the last `.` only when it lies after the last `/` and some
character strictly between them is not a `.` (so names made of leading dots
have no extension). -/
def splitextRoot (p : String) : String :=
  let s := p.data
  let sepIdx := pyRfind '/' s
  let dotIdx := pyRfind '.' s
  if sepIdx < dotIdx then
    if ((s.take dotIdx.toNat).drop (sepIdx + 1).toNat).any (fun c => !(c == '.')) then
      String.mk (s.take dotIdx.toNat)
    else p
  else p

/-- Whether the string starts with `/`. -/
def startsWithSlash (p : String) : Bool :=
  match p.data with
  | c :: _ => c == '/'
  | [] => false

/-- Whether the string ends with `/`. -/
def endsWithSlash (p : String) : Bool :=
  match p.data.getLast? with
  | some c => c == '/'
  | none => false

/-- `os.path.join(a, b)` for POSIX paths. -/
def pathJoin (a b : String) : String :=
  if startsWithSlash b then b
  else if a == "" || endsWithSlash a then a ++ b
  else a ++ "/" ++ b

/-- Python `repr`-style quoting used by the f-string error messages. -/
def squote (s : String) : String :=
  "\'" ++ s ++ "\'"

/-- The `models` lookup table of `src/scripts/sentiment_analysis.py`. -/
def models : List (String × String) :=
  [("distilbert", "distilbert-base-uncased-finetuned-sst-2-english"),
   ("roberta", "siebert/sentiment-roberta-large-english")]

/-- The `models` lookup table of `src/scripts/gradio_sentiment_demo.py`
(same identifiers, capitalised keys). -/
def gradioModels : List (String × String) :=
  [("DistilBERT", "distilbert-base-uncased-finetuned-sst-2-english"),
   ("RoBERTa", "siebert/sentiment-roberta-large-english")]

/-- Dictionary lookup `tbl[k]` on an association list. -/
def lookupModel (tbl : List (String × String)) (k : String) : Option String :=
  (tbl.find? (fun p => p.fst == k)).map Prod.snd

/-- The oracle environment of the batch variant: the file-system tests, the
CSV parser, the model loader, the loaded classifier applied to the review
batch, and the CSV writer.  Each fallible external call is an `Except`
returning the raised message on failure. -/
structure BatchEnv where
  isFile : String → Bool
  isDir : String → Bool
  readCsv : String → Except String DataFrame
  pipeline : String → Except String Unit
  classifier : List Cell → Except String (List ClsResult)
  toCsv : String → WriteCall → Except String Unit

/-- Shallow embedding of `analyze_sentiment`
(src/scripts/sentiment_analysis.py, lines 12-79).  Mirrors the source in
order: input-file, model-key and output-directory validation; CSV load
(not guarded by try/except, so a parse failure raises); `review`-column
presence and null checks; model load (guarded, a failure is printed and
the function returns); inference (not guarded, a failure raises); score
assignment (a result-count mismatch raises, as the pandas column
assignment would); column selection and `to_csv` (not guarded). -/
def analyze_sentiment (env : BatchEnv) (input_path model_name output_dir : String) :
    Outcome × List Event :=
  if !(env.isFile input_path) then
    (.earlyReturn ("Error: Input file " ++ squote input_path ++ " does not exist."), [])
  else if !((models.map Prod.fst).contains model_name) then
    (.earlyReturn ("Error: Model " ++ squote model_name ++
      " not supported. Choose \'distilbert\' or \'roberta\'."), [])
  else if !(env.isDir output_dir) then
    (.earlyReturn ("Error: Output directory " ++ squote output_dir ++ " does not exist."), [])
  else
    match env.readCsv input_path with
    | .error e => (.raised e, [.readInput])
    | .ok df =>
      if !(df.columns.contains "review") then
        (.earlyReturn "Error: \'review\' column not found in input CSV.", [.readInput])
      else if (df.get "review").any Cell.isnull then
        (.earlyReturn "Error: Some reviews are missing (NaN values) in the \'review\' column.",
          [.readInput])
      else
        let modelId := (lookupModel models model_name).getD ""
        match env.pipeline modelId with
        | .error e =>
          (.earlyReturn ("Error loading model: " ++ e), [.readInput, .loadModel modelId])
        | .ok _ =>
          let reviews := df.get "review"
          match env.classifier reviews with
          | .error e => (.raised e, [.readInput, .loadModel modelId, .runInference])
          | .ok results =>
            if results.length != reviews.length then
              (.raised "ValueError: Length of values does not match length of index",
                [.readInput, .loadModel modelId, .runInference])
            else
              let df2 := df.setCol "sentiment score"
                (results.map (fun r => Cell.num r.score))
              let file_name := splitextRoot (basename input_path)
              let score_output := pathJoin output_dir
                (model_name ++ "_" ++ file_name ++ "_sentiment_scores.csv")
              let w : WriteCall := ⟨df2.select ["review", "sentiment score"], ",", false⟩
              match env.toCsv score_output w with
              | .error e => (.raised e, [.readInput, .loadModel modelId, .runInference])
              | .ok _ =>
                (.completed score_output,
                  [.readInput, .loadModel modelId, .runInference,
                   .writeOutput score_output w])

/-- The oracle environment of the interactive variant: the CSV parser for
the uploaded file, the model loader, the classifier, the CSV writer, and
the process temp directory (`tempfile.gettempdir()`). -/
structure GradioEnv where
  readCsv : String → Except String DataFrame
  pipeline : String → Except String Unit
  classifier : List Cell → Except String (List ClsResult)
  toCsv : String → WriteCall → Except String Unit
  tempDir : String

/-- Shallow embedding of `classify_reviews`
(src/scripts/gradio_sentiment_demo.py, lines 13-76).  Mirrors the source in
order: guarded CSV load; `review`-column presence, null and text-content
checks; guarded model lookup and load (a `KeyError` from
`models[model_choice]` is caught by the same `except`); guarded inference;
score assignment (a result-count mismatch raises); unguarded `to_csv` to
the temp directory, so a write failure raises past the UI boundary. -/
def classify_reviews (env : GradioEnv) (file model_choice : String) :
    GrOutcome × List Event :=
  match env.readCsv file with
  | .error e => (.ret none ("Error loading CSV: " ++ e), [.readInput])
  | .ok df =>
    if !(df.columns.contains "review") then
      (.ret none "CSV must contain a \'review\' column.", [.readInput])
    else if (df.get "review").any Cell.isnull then
      (.ret none "Some reviews are missing (NaN).", [.readInput])
    else if !((df.get "review").all Cell.isValidText) then
      (.ret none "The \'review\' column must contain valid, non-empty text.", [.readInput])
    else
      match lookupModel gradioModels model_choice with
      | none =>
        (.ret none ("Error loading model: " ++ squote model_choice), [.readInput])
      | some modelId =>
        match env.pipeline modelId with
        | .error e =>
          (.ret none ("Error loading model: " ++ e), [.readInput, .loadModel modelId])
        | .ok _ =>
          let reviews := df.get "review"
          match env.classifier reviews with
          | .error e =>
            (.ret none ("Error during sentiment analysis " ++ e),
              [.readInput, .loadModel modelId, .runInference])
          | .ok results =>
            if results.length != reviews.length then
              (.raised "ValueError: Length of values does not match length of index",
                [.readInput, .loadModel modelId, .runInference])
            else
              let df2 := df.setCol "sentiment score"
                (results.map (fun r => Cell.num r.score))
              let output_df := df2.select ["review", "sentiment score"]
              let file_name := "sentiment_results_" ++ model_choice ++ ".csv"
              let temp_path := pathJoin env.tempDir file_name
              let w : WriteCall := ⟨output_df, ",", false⟩
              match env.toCsv temp_path w with
              | .error e =>
                (.raised e, [.readInput, .loadModel modelId, .runInference])
              | .ok _ =>
                (.ret (some temp_path) "Done! Download ready.",
                  [.readInput, .loadModel modelId, .runInference,
                   .writeOutput temp_path w])

/-- Python truthiness fallback `a or b` for strings: `b` when `a` is empty. -/
def orStr (a b : String) : String :=
  if a = "" then b else a

/-- The output-directory resolution of `main`
(src/scripts/sentiment_analysis.py, line 106):
`args.output_dir or os.path.dirname(args.input_file) or "."`, where an
absent `--output-dir` is `None` (modelled as `none`, falsy like `""`). -/
def resolveOutputDir (output_dir_arg : Option String) (input_file : String) : String :=
  orStr (orStr (output_dir_arg.getD "") (dirname input_file)) "."

/-- A deterministic stub classifier: one result of score 1 per input, in
order, as the external contract promises. -/
def stubResults (cells : List Cell) : List ClsResult :=
  cells.map (fun _ => ⟨1⟩)

/-- A well-formed two-row dataset with an extra passthrough column. -/
def dfOkB : DataFrame :=
  ⟨[("review", [Cell.str "great movie", Cell.str "terrible film"]),
    ("other", [Cell.num 1, Cell.num 2])]⟩

/-- A dataset whose single review is a whitespace-only string. -/
def dfWs : DataFrame :=
  ⟨[("review", [Cell.str " "])]⟩

/-- A dataset with a null review cell. -/
def dfNull : DataFrame :=
  ⟨[("review", [Cell.null, Cell.str "ok"])]⟩

/-- A dataset without a `review` column. -/
def dfNoCol : DataFrame :=
  ⟨[("text", [Cell.str "great"])]⟩

/-- A batch environment in which every external call succeeds and parsing
yields `df`. -/
def batchEnvOf (df : DataFrame) : BatchEnv :=
  { isFile := fun _ => true
    isDir := fun _ => true
    readCsv := fun _ => .ok df
    pipeline := fun _ => .ok ()
    classifier := fun cells => .ok (stubResults cells)
    toCsv := fun _ _ => .ok () }

/-- An interactive environment in which every external call succeeds and
parsing yields `df`. -/
def gradioEnvOf (df : DataFrame) : GradioEnv :=
  { readCsv := fun _ => .ok df
    pipeline := fun _ => .ok ()
    classifier := fun cells => .ok (stubResults cells)
    toCsv := fun _ _ => .ok ()
    tempDir := "/tmp" }

/-- A batch environment whose input path does not name a file. -/
def envBatchNoFile : BatchEnv :=
  { batchEnvOf dfOkB with isFile := fun _ => false }

/-- A batch environment whose output directory does not exist. -/
def envBatchNoDir : BatchEnv :=
  { batchEnvOf dfOkB with isDir := fun _ => false }

/-- A batch environment in which CSV parsing raises. -/
def envBatchParseFail : BatchEnv :=
  { batchEnvOf dfOkB with readCsv := fun _ => .error "UnicodeDecodeError: invalid start byte" }

/-- A batch environment in which the model load raises. -/
def envBatchLoadFail : BatchEnv :=
  { batchEnvOf dfOkB with pipeline := fun _ => .error "OSError: model weights not found" }

/-- A batch environment in which inference raises. -/
def envBatchInferFail : BatchEnv :=
  { batchEnvOf dfOkB with classifier := fun _ => .error "RuntimeError: inference failed" }

/-- An interactive environment in which CSV parsing raises. -/
def envGradioParseFail : GradioEnv :=
  { gradioEnvOf dfOkB with readCsv := fun _ => .error "UnicodeDecodeError: invalid start byte" }

/-- An interactive environment in which the model load raises. -/
def envGradioLoadFail : GradioEnv :=
  { gradioEnvOf dfOkB with pipeline := fun _ => .error "OSError: model weights not found" }

/-- An interactive environment in which inference raises. -/
def envGradioInferFail : GradioEnv :=
  { gradioEnvOf dfOkB with classifier := fun _ => .error "RuntimeError: inference failed" }

/-- An interactive environment in which writing the output CSV raises. -/
def envGradioWriteFail : GradioEnv :=
  { gradioEnvOf dfOkB with toCsv := fun _ _ => .error "PermissionError: temp directory not writable" }

/-- The write call a fully successful run over `dfOkB` performs: the
two-column frame of reviews and stub scores, comma separator, no index. -/
def wOkB : WriteCall :=
  ⟨⟨[("review", [Cell.str "great movie", Cell.str "terrible film"]),
     ("sentiment score", [Cell.num 1, Cell.num 1])]⟩, ",", false⟩

/-- If a character does not occur in the list, `rlast` finds nothing. -/
theorem rlast_eq_none {c : Char} {l : List Char} (h : l.contains c = false) :
    rlast c l = none := by
  induction l with
  | nil => rfl
  | cons x xs ih =>
    simp only [List.contains_cons, Bool.or_eq_false_iff, beq_eq_false_iff_ne] at h
    simp only [rlast, ih (by simpa using h.2)]
    rw [if_neg (fun hx => h.1 hx.symm)]

/-- A path without a slash has an empty `dirname`. -/
theorem dirname_eq_empty {i : String} (h : i.data.contains '/' = false) :
    dirname i = "" := by
  simp [dirname, pyRfind, rlast_eq_none h]

/-- C9: in the batch variant, a nonexistent input path makes
`analyze_sentiment` print the input-file error and return at once, for
every model key and output directory: nothing is read, parsed, loaded or
written, and the model key and output directory are not consulted. -/
theorem C9_input_check_first (env : BatchEnv) (p m o : String)
    (h : env.isFile p = false) :
    analyze_sentiment env p m o =
      (.earlyReturn ("Error: Input file " ++ squote p ++ " does not exist."), []) := by
  simp [analyze_sentiment, h]

/-- Witness for C9 at a concrete environment, with an unsupported model key
and a missing output directory: the input-file error still wins. -/
theorem C9_witness :
    analyze_sentiment envBatchNoFile "missing.csv" "bert" "/nonexistent" =
      (.earlyReturn ("Error: Input file " ++ squote "missing.csv" ++ " does not exist."), []) :=
  C9_input_check_first envBatchNoFile "missing.csv" "bert" "/nonexistent" rfl

/-- C6: in the batch variant, an unsupported model key is rejected with a
printed message and an empty effect trace — the dataset is never read and
nothing is written; likewise a missing output directory is rejected before
the dataset is read or touched. -/
theorem C6_prevalidation :
    (∀ (env : BatchEnv) (p m o : String),
      (models.map Prod.fst).contains m = false →
      ∃ msg, analyze_sentiment env p m o = (.earlyReturn msg, [])) ∧
    (∀ (env : BatchEnv) (p m o : String),
      env.isDir o = false →
      ∃ msg, analyze_sentiment env p m o = (.earlyReturn msg, [])) := by
  constructor
  · intro env p m o h
    cases hf : env.isFile p
    · exact ⟨"Error: Input file " ++ squote p ++ " does not exist.",
        by unfold analyze_sentiment; rw [hf]; rfl⟩
    · exact ⟨"Error: Model " ++ squote m ++ " not supported. Choose \'distilbert\' or \'roberta\'.",
        by unfold analyze_sentiment; rw [hf, h]; rfl⟩
  · intro env p m o h
    cases hf : env.isFile p
    · exact ⟨"Error: Input file " ++ squote p ++ " does not exist.",
        by unfold analyze_sentiment; rw [hf]; rfl⟩
    · cases hm : (models.map Prod.fst).contains m
      · exact ⟨"Error: Model " ++ squote m ++ " not supported. Choose \'distilbert\' or \'roberta\'.",
          by unfold analyze_sentiment; rw [hf, hm]; rfl⟩
      · exact ⟨"Error: Output directory " ++ squote o ++ " does not exist.",
          by unfold analyze_sentiment; rw [hf, hm, h]; rfl⟩

/-- Witness for C6: the key `"bert"` is rejected with no file I/O, and a
missing output directory is rejected with no file I/O. -/
theorem C6_witness :
    (∃ msg, analyze_sentiment (batchEnvOf dfOkB) "reviews.csv" "bert" "out" =
      (.earlyReturn msg, [])) ∧
    (∃ msg, analyze_sentiment envBatchNoDir "reviews.csv" "distilbert" "out" =
      (.earlyReturn msg, [])) :=
  ⟨C6_prevalidation.1 (batchEnvOf dfOkB) "reviews.csv" "bert" "out" (by decide),
   C6_prevalidation.2 envBatchNoDir "reviews.csv" "distilbert" "out" rfl⟩

/-- C10: when `--output-dir` is absent the batch entry point resolves the
output directory to `dirname(input_file)`, falling back to `"."` when that
directory component is empty; in particular an input path without a slash
resolves to `"."`. -/
theorem C10_output_dir_default :
    (∀ i : String, resolveOutputDir none i =
      if dirname i = "" then "." else dirname i) ∧
    (∀ i : String, i.data.contains '/' = false → resolveOutputDir none i = ".") := by
  have h1 : ∀ i : String, resolveOutputDir none i =
      if dirname i = "" then "." else dirname i := by
    intro i
    show orStr (orStr "" (dirname i)) "." = _
    rw [show orStr "" (dirname i) = dirname i from by simp [orStr]]
    simp [orStr]
  refine ⟨h1, fun i h => ?_⟩
  rw [h1, dirname_eq_empty h]
  simp

/-- C2: validation short-circuits in a fixed order, in both variants.  A
dataset without a `review` column reports the missing-column error (not a
null or content complaint); a dataset that has the column but holds a null
cell reports the null error (not the content error), even though a null
cell also fails the content test. -/
theorem C2_error_precedence :
    (∀ (env : GradioEnv) (file mc : String) (df : DataFrame),
      env.readCsv file = .ok df →
      df.columns.contains "review" = false →
      classify_reviews env file mc =
        (.ret none "CSV must contain a \'review\' column.", [.readInput])) ∧
    (∀ (env : GradioEnv) (file mc : String) (df : DataFrame),
      env.readCsv file = .ok df →
      df.columns.contains "review" = true →
      (df.get "review").any Cell.isnull = true →
      classify_reviews env file mc =
        (.ret none "Some reviews are missing (NaN).", [.readInput])) ∧
    (∀ (env : BatchEnv) (p m o : String) (df : DataFrame),
      env.isFile p = true →
      (models.map Prod.fst).contains m = true →
      env.isDir o = true →
      env.readCsv p = .ok df →
      df.columns.contains "review" = false →
      analyze_sentiment env p m o =
        (.earlyReturn "Error: \'review\' column not found in input CSV.", [.readInput])) ∧
    (∀ (env : BatchEnv) (p m o : String) (df : DataFrame),
      env.isFile p = true →
      (models.map Prod.fst).contains m = true →
      env.isDir o = true →
      env.readCsv p = .ok df →
      df.columns.contains "review" = true →
      (df.get "review").any Cell.isnull = true →
      analyze_sentiment env p m o =
        (.earlyReturn "Error: Some reviews are missing (NaN values) in the \'review\' column.",
          [.readInput])) := by
  refine ⟨?_, ?_, ?_, ?_⟩
  · intro env file mc df h1 h2
    simp only [classify_reviews, h1]; rw [h2]; rfl
  · intro env file mc df h1 h2 h3
    simp only [classify_reviews, h1]; rw [h2, h3]; rfl
  · intro env p m o df hf hm hd h1 h2
    simp only [analyze_sentiment, h1]; rw [hf, hm, hd, h2]; rfl
  · intro env p m o df hf hm hd h1 h2 h3
    simp only [analyze_sentiment, h1]; rw [hf, hm, hd, h2, h3]; rfl

/-- Witness for C2 at concrete datasets: one without the column, one with a
null cell, through both variants. -/
theorem C2_witness :
    classify_reviews (gradioEnvOf dfNoCol) "up.csv" "DistilBERT" =
      (.ret none "CSV must contain a \'review\' column.", [.readInput]) ∧
    classify_reviews (gradioEnvOf dfNull) "up.csv" "DistilBERT" =
      (.ret none "Some reviews are missing (NaN).", [.readInput]) ∧
    analyze_sentiment (batchEnvOf dfNoCol) "r.csv" "distilbert" "out" =
      (.earlyReturn "Error: \'review\' column not found in input CSV.", [.readInput]) ∧
    analyze_sentiment (batchEnvOf dfNull) "r.csv" "distilbert" "out" =
      (.earlyReturn "Error: Some reviews are missing (NaN values) in the \'review\' column.",
        [.readInput]) :=
  ⟨C2_error_precedence.1 (gradioEnvOf dfNoCol) "up.csv" "DistilBERT" dfNoCol rfl rfl,
   C2_error_precedence.2.1 (gradioEnvOf dfNull) "up.csv" "DistilBERT" dfNull rfl rfl rfl,
   C2_error_precedence.2.2.1 (batchEnvOf dfNoCol) "r.csv" "distilbert" "out" dfNoCol
     rfl rfl rfl rfl rfl,
   C2_error_precedence.2.2.2 (batchEnvOf dfNull) "r.csv" "distilbert" "out" dfNull
     rfl rfl rfl rfl rfl rfl⟩

/-- C4 as amended: a CSV decode/parse failure is wrapped and returned as a
status string by the interactive variant; the batch variant does not catch
it — the exception propagates out of `analyze_sentiment` unchanged and
nothing is printed or written. -/
theorem C4_parse_error_handling :
    (∀ (env : GradioEnv) (file mc e : String),
      env.readCsv file = .error e →
      classify_reviews env file mc =
        (.ret none ("Error loading CSV: " ++ e), [.readInput])) ∧
    (∀ (env : BatchEnv) (p m o e : String),
      env.isFile p = true →
      (models.map Prod.fst).contains m = true →
      env.isDir o = true →
      env.readCsv p = .error e →
      analyze_sentiment env p m o = (.raised e, [.readInput])) := by
  constructor
  · intro env file mc e h1
    simp only [classify_reviews, h1]
  · intro env p m o e hf hm hd h1
    simp only [analyze_sentiment, h1]; rw [hf, hm, hd]; rfl

/-- Witness for C4 at concrete parse-failing environments. -/
theorem C4_witness :
    classify_reviews envGradioParseFail "up.csv" "DistilBERT" =
      (.ret none ("Error loading CSV: " ++ "UnicodeDecodeError: invalid start byte"),
        [.readInput]) ∧
    analyze_sentiment envBatchParseFail "in.csv" "distilbert" "out" =
      (.raised "UnicodeDecodeError: invalid start byte", [.readInput]) :=
  ⟨C4_parse_error_handling.1 envGradioParseFail "up.csv" "DistilBERT"
     "UnicodeDecodeError: invalid start byte" rfl,
   C4_parse_error_handling.2 envBatchParseFail "in.csv" "distilbert" "out"
     "UnicodeDecodeError: invalid start byte" rfl rfl rfl rfl⟩

/-- Counterexample to C4 as stated: with a parse failure, the batch variant
ends in an uncaught exception, not in the printed-error-and-return exit the
claim describes. -/
theorem C4_counterexample :
    (analyze_sentiment envBatchParseFail "in.csv" "distilbert" "out").fst =
      Outcome.raised "UnicodeDecodeError: invalid start byte" ∧
    (analyze_sentiment envBatchParseFail "in.csv" "distilbert" "out").fst.raises = true ∧
    (analyze_sentiment envBatchParseFail "in.csv" "distilbert" "out").fst.printsAndReturns
      = false :=
  ⟨rfl, rfl, rfl⟩

/-- C1 as amended.  Interactive variant: any `review` cell that is null, not
a string, or whitespace-only makes `classify_reviews` return a validation
error with no inference and no write, and inference runs only when every
cell is a non-empty, non-whitespace-only string.  Batch variant: validation
guarantees only column presence and absence of nulls before inference — the
content check is absent there. -/
theorem C1_validation_gate :
    (∀ (env : GradioEnv) (file mc : String) (df : DataFrame),
      env.readCsv file = .ok df →
      (df.get "review").all Cell.isValidText = false →
      ∃ msg, classify_reviews env file mc = (.ret none msg, [.readInput])) ∧
    (∀ (env : GradioEnv) (file mc : String),
      Event.runInference ∈ (classify_reviews env file mc).snd →
      ∃ df, env.readCsv file = .ok df ∧
        (df.get "review").all Cell.isValidText = true) ∧
    (∀ (env : BatchEnv) (p m o : String) (df : DataFrame),
      env.readCsv p = .ok df →
      Event.runInference ∈ (analyze_sentiment env p m o).snd →
      df.columns.contains "review" = true ∧
        (df.get "review").any Cell.isnull = false) := by
  refine ⟨?_, ?_, ?_⟩
  · intro env file mc df h1 h2
    cases hc : df.columns.contains "review"
    · exact ⟨"CSV must contain a \'review\' column.",
        by simp only [classify_reviews, h1]; rw [hc]; rfl⟩
    · cases hn : (df.get "review").any Cell.isnull
      · exact ⟨"The \'review\' column must contain valid, non-empty text.",
          by simp only [classify_reviews, h1]; rw [hc, hn, h2]; rfl⟩
      · exact ⟨"Some reviews are missing (NaN).",
          by simp only [classify_reviews, h1]; rw [hc, hn]; rfl⟩
  · intro env file mc h
    cases hr : env.readCsv file with
    | error e =>
      have heq : classify_reviews env file mc =
          (.ret none ("Error loading CSV: " ++ e), [.readInput]) := by
        simp only [classify_reviews, hr]
      rw [heq] at h
      simp at h
    | ok df =>
      cases hv : (df.get "review").all Cell.isValidText
      · exfalso
        cases hc : df.columns.contains "review"
        · have heq : classify_reviews env file mc =
              (.ret none "CSV must contain a \'review\' column.", [.readInput]) := by
            simp only [classify_reviews, hr]; rw [hc]; rfl
          rw [heq] at h
          simp at h
        · cases hn : (df.get "review").any Cell.isnull
          · have heq : classify_reviews env file mc =
                (.ret none "The \'review\' column must contain valid, non-empty text.",
                  [.readInput]) := by
              simp only [classify_reviews, hr]; rw [hc, hn, hv]; rfl
            rw [heq] at h
            simp at h
          · have heq : classify_reviews env file mc =
                (.ret none "Some reviews are missing (NaN).", [.readInput]) := by
              simp only [classify_reviews, hr]; rw [hc, hn]; rfl
            rw [heq] at h
            simp at h
      · exact ⟨df, rfl, hv⟩
  · intro env p m o df hr h
    cases hf : env.isFile p
    · have heq : analyze_sentiment env p m o =
          (.earlyReturn ("Error: Input file " ++ squote p ++ " does not exist."), []) := by
        unfold analyze_sentiment; rw [hf]; rfl
      rw [heq] at h
      simp at h
    · cases hm : (models.map Prod.fst).contains m
      · have heq : analyze_sentiment env p m o =
            (.earlyReturn ("Error: Model " ++ squote m ++
              " not supported. Choose \'distilbert\' or \'roberta\'."), []) := by
          unfold analyze_sentiment; rw [hf, hm]; rfl
        rw [heq] at h
        simp at h
      · cases hd : env.isDir o
        · have heq : analyze_sentiment env p m o =
              (.earlyReturn ("Error: Output directory " ++ squote o ++ " does not exist."),
                []) := by
            unfold analyze_sentiment; rw [hf, hm, hd]; rfl
          rw [heq] at h
          simp at h
        · cases hc : df.columns.contains "review"
          · have heq : analyze_sentiment env p m o =
                (.earlyReturn "Error: \'review\' column not found in input CSV.",
                  [.readInput]) := by
              simp only [analyze_sentiment, hr]; rw [hf, hm, hd, hc]; rfl
            rw [heq] at h
            simp at h
          · cases hn : (df.get "review").any Cell.isnull
            · exact ⟨rfl, rfl⟩
            · have heq : analyze_sentiment env p m o =
                  (.earlyReturn
                    "Error: Some reviews are missing (NaN values) in the \'review\' column.",
                    [.readInput]) := by
                simp only [analyze_sentiment, hr]; rw [hf, hm, hd, hc, hn]; rfl
              rw [heq] at h
              simp at h

/-- Witness for C1: the interactive variant rejects a whitespace-only
review with a validation status and only reads the input. -/
theorem C1_witness :
    ∃ msg, classify_reviews (gradioEnvOf dfWs) "up.csv" "DistilBERT" =
      (.ret none msg, [.readInput]) :=
  C1_validation_gate.1 (gradioEnvOf dfWs) "up.csv" "DistilBERT" dfWs rfl rfl

/-- Counterexample to C1 as stated: the batch variant accepts a dataset
whose only review is the whitespace-only string `" "` — no validation
error is reported, inference runs on it, and the run completes with a
written output. -/
theorem C1_counterexample :
    Cell.isValidText (Cell.str " ") = false ∧
    (analyze_sentiment (batchEnvOf dfWs) "reviews.csv" "distilbert" "out").fst =
      Outcome.completed "out/distilbert_reviews_sentiment_scores.csv" ∧
    Event.runInference ∈
      (analyze_sentiment (batchEnvOf dfWs) "reviews.csv" "distilbert" "out").snd := by
  refine ⟨rfl, rfl, ?_⟩
  decide

/-- C5 as amended.  A model-load failure is caught in both variants and
reported with the original cause (status string in the interactive variant,
printed message and return in the batch variant).  An inference failure is
caught and reported only in the interactive variant; in the batch variant
it propagates as an uncaught exception.  In all four cases the effect trace
contains no write, so no output file is written. -/
theorem C5_model_error_handling :
    (∀ (env : GradioEnv) (file mc mid e : String) (df : DataFrame),
      env.readCsv file = .ok df →
      df.columns.contains "review" = true →
      (df.get "review").any Cell.isnull = false →
      (df.get "review").all Cell.isValidText = true →
      lookupModel gradioModels mc = some mid →
      env.pipeline mid = .error e →
      classify_reviews env file mc =
        (.ret none ("Error loading model: " ++ e), [.readInput, .loadModel mid])) ∧
    (∀ (env : GradioEnv) (file mc mid e : String) (df : DataFrame),
      env.readCsv file = .ok df →
      df.columns.contains "review" = true →
      (df.get "review").any Cell.isnull = false →
      (df.get "review").all Cell.isValidText = true →
      lookupModel gradioModels mc = some mid →
      env.pipeline mid = .ok () →
      env.classifier (df.get "review") = .error e →
      classify_reviews env file mc =
        (.ret none ("Error during sentiment analysis " ++ e),
          [.readInput, .loadModel mid, .runInference])) ∧
    (∀ (env : BatchEnv) (p m o e : String) (df : DataFrame),
      env.isFile p = true →
      (models.map Prod.fst).contains m = true →
      env.isDir o = true →
      env.readCsv p = .ok df →
      df.columns.contains "review" = true →
      (df.get "review").any Cell.isnull = false →
      env.pipeline ((lookupModel models m).getD "") = .error e →
      analyze_sentiment env p m o =
        (.earlyReturn ("Error loading model: " ++ e),
          [.readInput, .loadModel ((lookupModel models m).getD "")])) ∧
    (∀ (env : BatchEnv) (p m o e : String) (df : DataFrame),
      env.isFile p = true →
      (models.map Prod.fst).contains m = true →
      env.isDir o = true →
      env.readCsv p = .ok df →
      df.columns.contains "review" = true →
      (df.get "review").any Cell.isnull = false →
      env.pipeline ((lookupModel models m).getD "") = .ok () →
      env.classifier (df.get "review") = .error e →
      analyze_sentiment env p m o =
        (.raised e,
          [.readInput, .loadModel ((lookupModel models m).getD ""), .runInference])) := by
  refine ⟨?_, ?_, ?_, ?_⟩
  · intro env file mc mid e df h1 h2 h3 h4 h5 h6
    simp only [classify_reviews, h1, h5, h6]; rw [h2, h3, h4]; rfl
  · intro env file mc mid e df h1 h2 h3 h4 h5 h6 h7
    simp only [classify_reviews, h1, h5, h6, h7]; rw [h2, h3, h4]; rfl
  · intro env p m o e df hf hm hd h1 h2 h3 h6
    simp only [analyze_sentiment, h1, h6]; rw [hf, hm, hd, h2, h3]; rfl
  · intro env p m o e df hf hm hd h1 h2 h3 h6 h7
    simp only [analyze_sentiment, h1, h6, h7]; rw [hf, hm, hd, h2, h3]; rfl

/-- Witness for C5 at concrete failing environments: load failures in both
variants, inference failures in both variants. -/
theorem C5_witness :
    classify_reviews envGradioLoadFail "up.csv" "DistilBERT" =
      (.ret none ("Error loading model: " ++ "OSError: model weights not found"),
        [.readInput, .loadModel "distilbert-base-uncased-finetuned-sst-2-english"]) ∧
    classify_reviews envGradioInferFail "up.csv" "DistilBERT" =
      (.ret none ("Error during sentiment analysis " ++ "RuntimeError: inference failed"),
        [.readInput, .loadModel "distilbert-base-uncased-finetuned-sst-2-english",
         .runInference]) ∧
    analyze_sentiment envBatchLoadFail "in.csv" "distilbert" "out" =
      (.earlyReturn ("Error loading model: " ++ "OSError: model weights not found"),
        [.readInput, .loadModel ((lookupModel models "distilbert").getD "")]) ∧
    analyze_sentiment envBatchInferFail "in.csv" "distilbert" "out" =
      (.raised "RuntimeError: inference failed",
        [.readInput, .loadModel ((lookupModel models "distilbert").getD ""),
         .runInference]) :=
  ⟨C5_model_error_handling.1 envGradioLoadFail "up.csv" "DistilBERT"
     "distilbert-base-uncased-finetuned-sst-2-english" "OSError: model weights not found"
     dfOkB rfl rfl rfl rfl rfl rfl,
   C5_model_error_handling.2.1 envGradioInferFail "up.csv" "DistilBERT"
     "distilbert-base-uncased-finetuned-sst-2-english" "RuntimeError: inference failed"
     dfOkB rfl rfl rfl rfl rfl rfl rfl,
   C5_model_error_handling.2.2.1 envBatchLoadFail "in.csv" "distilbert" "out"
     "OSError: model weights not found" dfOkB rfl rfl rfl rfl rfl rfl rfl,
   C5_model_error_handling.2.2.2 envBatchInferFail "in.csv" "distilbert" "out"
     "RuntimeError: inference failed" dfOkB rfl rfl rfl rfl rfl rfl rfl rfl⟩

/-- Counterexample to C5 as stated: an inference failure in the batch
variant is an uncaught exception, not a caught-and-displayed model error;
no output is written. -/
theorem C5_counterexample :
    (analyze_sentiment envBatchInferFail "in.csv" "distilbert" "out").fst =
      Outcome.raised "RuntimeError: inference failed" ∧
    (analyze_sentiment envBatchInferFail "in.csv" "distilbert" "out").fst.printsAndReturns
      = false ∧
    (analyze_sentiment envBatchInferFail "in.csv" "distilbert" "out").snd.any Event.isWrite
      = false :=
  ⟨rfl, rfl, rfl⟩

/-- Witness for C10: a bare filename resolves to the current directory and
a path with a directory component resolves to that component. -/
theorem C10_witness :
    resolveOutputDir none "reviews.csv" = "." ∧
    resolveOutputDir none "data/reviews.csv" =
      (if dirname "data/reviews.csv" = "" then "." else dirname "data/reviews.csv") :=
  ⟨C10_output_dir_default.2 "reviews.csv" (by decide),
   C10_output_dir_default.1 "data/reviews.csv"⟩

/-- In the batch variant a write event can only arise from the final,
fully successful branch, whose outcome is completion at the written path. -/
theorem batch_write_only_on_completion (env : BatchEnv) (p m o : String)
    (out : Outcome) (tr : List Event) (heq : analyze_sentiment env p m o = (out, tr)) :
    ∀ (pa : String) (w : WriteCall), Event.writeOutput pa w ∈ tr → out = .completed pa := by
  intro pa w hmem
  simp only [analyze_sentiment] at heq
  repeat' split at heq
  all_goals (cases heq; simp_all)

/-- In the interactive variant a write event can only arise from the final,
fully successful branch, whose outcome returns the written path. -/
theorem gradio_write_only_on_completion (env : GradioEnv) (file mc : String)
    (out : GrOutcome) (tr : List Event) (heq : classify_reviews env file mc = (out, tr)) :
    ∀ (pa : String) (w : WriteCall), Event.writeOutput pa w ∈ tr →
      out = .ret (some pa) "Done! Download ready." := by
  intro pa w hmem
  simp only [classify_reviews] at heq
  repeat' split at heq
  all_goals (cases heq; simp_all)

/-- C7: a missing output directory aborts the batch run with the
directory error message and an empty effect trace (nothing written); and
in both variants output writing is all-or-nothing — a write event occurs
only in a run whose outcome is full success at that same path. -/
theorem C7_no_partial_output :
    (∀ (env : BatchEnv) (p m o : String),
      env.isFile p = true → (models.map Prod.fst).contains m = true →
      env.isDir o = false →
      analyze_sentiment env p m o =
        (.earlyReturn ("Error: Output directory " ++ squote o ++ " does not exist."), [])) ∧
    (∀ (env : BatchEnv) (p m o pa : String) (w : WriteCall),
      Event.writeOutput pa w ∈ (analyze_sentiment env p m o).snd →
      (analyze_sentiment env p m o).fst = .completed pa) ∧
    (∀ (env : GradioEnv) (file mc pa : String) (w : WriteCall),
      Event.writeOutput pa w ∈ (classify_reviews env file mc).snd →
      (classify_reviews env file mc).fst = .ret (some pa) "Done! Download ready.") := by
  refine ⟨?_, ?_, ?_⟩
  · intro env p m o hf hm hd
    unfold analyze_sentiment; rw [hf, hm, hd]; rfl
  · intro env p m o pa w hmem
    exact batch_write_only_on_completion env p m o _ _ rfl pa w hmem
  · intro env file mc pa w hmem
    exact gradio_write_only_on_completion env file mc _ _ rfl pa w hmem

/-- Witness for C7: the missing-directory abort at a concrete environment,
and the all-or-nothing property at concrete successful runs of both
variants. -/
theorem C7_witness :
    analyze_sentiment envBatchNoDir "in.csv" "distilbert" "out" =
      (.earlyReturn ("Error: Output directory " ++ squote "out" ++ " does not exist."), []) ∧
    (analyze_sentiment (batchEnvOf dfOkB) "in.csv" "distilbert" "out").fst =
      .completed "out/distilbert_in_sentiment_scores.csv" ∧
    (classify_reviews (gradioEnvOf dfOkB) "up.csv" "DistilBERT").fst =
      .ret (some "/tmp/sentiment_results_DistilBERT.csv") "Done! Download ready." :=
  ⟨C7_no_partial_output.1 envBatchNoDir "in.csv" "distilbert" "out" rfl rfl rfl,
   C7_no_partial_output.2.1 (batchEnvOf dfOkB) "in.csv" "distilbert" "out"
     "out/distilbert_in_sentiment_scores.csv" wOkB (by decide),
   C7_no_partial_output.2.2 (gradioEnvOf dfOkB) "up.csv" "DistilBERT"
     "/tmp/sentiment_results_DistilBERT.csv" wOkB (by decide)⟩

/-- C8 as amended: `classify_reviews` returns a `(file, status)` pair on
every parse, validation, model-load and inference failure, and never
raises — provided writing the output CSV succeeds and the classifier
returns one result per review.  (A write failure, or a result-count
mismatch, raises past the UI boundary; see the counterexample.) -/
theorem C8_ui_totality :
    ∀ (env : GradioEnv) (file mc : String),
      (∀ (pa : String) (w : WriteCall), env.toCsv pa w = .ok ()) →
      (∀ (cells : List Cell) (rs : List ClsResult),
        env.classifier cells = .ok rs → rs.length = cells.length) →
      ∃ f s, (classify_reviews env file mc).fst = .ret f s := by
  intro env file mc hw hc
  cases hr : env.readCsv file with
  | error e =>
    exact ⟨none, "Error loading CSV: " ++ e, by simp only [classify_reviews, hr]⟩
  | ok df =>
    cases hcol : df.columns.contains "review"
    · exact ⟨none, "CSV must contain a \'review\' column.",
        by simp only [classify_reviews, hr]; rw [hcol]; rfl⟩
    · cases hn : (df.get "review").any Cell.isnull
      · cases hv : (df.get "review").all Cell.isValidText
        · exact ⟨none, "The \'review\' column must contain valid, non-empty text.",
            by simp only [classify_reviews, hr]; rw [hcol, hn, hv]; rfl⟩
        · cases hlk : lookupModel gradioModels mc with
          | none =>
            exact ⟨none, "Error loading model: " ++ squote mc,
              by simp only [classify_reviews, hr, hlk]; rw [hcol, hn, hv]; rfl⟩
          | some mid =>
            cases hp : env.pipeline mid with
            | error e =>
              exact ⟨none, "Error loading model: " ++ e,
                by simp only [classify_reviews, hr, hlk, hp]; rw [hcol, hn, hv]; rfl⟩
            | ok u =>
              cases hcl : env.classifier (df.get "review") with
              | error e =>
                exact ⟨none, "Error during sentiment analysis " ++ e,
                  by simp only [classify_reviews, hr, hlk, hp, hcl]; rw [hcol, hn, hv]; rfl⟩
              | ok rs =>
                have hlen : rs.length = (df.get "review").length := hc _ _ hcl
                refine ⟨some (pathJoin env.tempDir ("sentiment_results_" ++ mc ++ ".csv")),
                  "Done! Download ready.", ?_⟩
                simp only [classify_reviews, hr, hlk, hp, hcl, hw]
                rw [hcol, hn, hv, hlen]
                simp only [bne_self_eq_false]
                rfl
      · exact ⟨none, "Some reviews are missing (NaN).",
          by simp only [classify_reviews, hr]; rw [hcol, hn]; rfl⟩

/-- Witness for C8 at a concrete environment whose write succeeds and
whose classifier is the one-score-per-review stub. -/
theorem C8_witness :
    ∃ f s, (classify_reviews (gradioEnvOf dfOkB) "up.csv" "DistilBERT").fst =
      GrOutcome.ret f s :=
  C8_ui_totality (gradioEnvOf dfOkB) "up.csv" "DistilBERT" (fun _ _ => rfl)
    (fun cells rs h => by
      injection h with h2
      subst h2
      simp [stubResults])

/-- Counterexample to C8 as stated: when writing the output CSV fails, the
unguarded `to_csv` call makes `classify_reviews` raise instead of
returning a `(file, status)` pair. -/
theorem C8_counterexample :
    (classify_reviews envGradioWriteFail "up.csv" "DistilBERT").fst =
      GrOutcome.raised "PermissionError: temp directory not writable" ∧
    (classify_reviews envGradioWriteFail "up.csv" "DistilBERT").fst.isReturn = false ∧
    (classify_reviews envGradioWriteFail "up.csv" "DistilBERT").fst.raises = true :=
  ⟨rfl, rfl, rfl⟩

theorem find_replace_ne (l : List (String × List Cell)) (n m : String)
    (vals : List Cell) (h : m ≠ n) :
    (l.map (fun c => if c.fst == n then (c.fst, vals) else c)).find? (fun c => c.fst == m)
      = l.find? (fun c => c.fst == m) := by
  induction l with
  | nil => rfl
  | cons a t ih =>
    by_cases ha : a.fst = n <;> by_cases ham : a.fst = m
    · exact absurd (ham.symm.trans ha) h
    · simp_all [-List.find?_map]
    · simp_all [-List.find?_map]
    · simp_all [-List.find?_map]

theorem find_none_of_contains_false (l : List (String × List Cell)) (n : String)
    (h : (l.map Prod.fst).contains n = false) :
    l.find? (fun c => c.fst == n) = none := by
  rw [List.find?_eq_none]
  intro x hx hpx
  have hxn : x.fst = n := beq_iff_eq.mp hpx
  have hmem : n ∈ l.map Prod.fst := hxn ▸ List.mem_map_of_mem Prod.fst hx
  simp_all

theorem find_replace_self (l : List (String × List Cell)) (n : String) (vals : List Cell)
    (h : (l.map Prod.fst).contains n = true) :
    ∃ k, (l.map (fun c => if c.fst == n then (c.fst, vals) else c)).find?
        (fun c => c.fst == n) = some (k, vals) := by
  induction l with
  | nil => simp at h
  | cons a t ih =>
    by_cases ha : a.fst = n
    · exact ⟨a.fst, by simp [-List.find?_map, ha]⟩
    · have h2 : (t.map Prod.fst).contains n = true := by
        simp only [List.map_cons, List.contains_cons, Bool.or_eq_true] at h
        rcases h with h | h
        · exact absurd (beq_iff_eq.mp h).symm ha
        · exact h
      obtain ⟨k, hk⟩ := ih h2
      refine ⟨k, ?_⟩
      simp only [List.map_cons]
      rw [if_neg (by simp only [beq_iff_eq]; exact ha)]
      rw [List.find?_cons]
      rw [show (a.fst == n) = false from beq_eq_false_iff_ne.mpr ha]
      exact hk

theorem get_setCol_self (df : DataFrame) (n : String) (vals : List Cell) :
    (df.setCol n vals).get n = vals := by
  rcases df with ⟨l⟩
  unfold DataFrame.setCol
  by_cases hc : (DataFrame.columns ⟨l⟩).contains n = true
  · rw [if_pos hc]
    obtain ⟨k, hk⟩ := find_replace_self l n vals (by simpa [DataFrame.columns] using hc)
    simp only [DataFrame.get, hk]
  · rw [if_neg hc]
    simp only [DataFrame.get]
    rw [List.find?_append,
      find_none_of_contains_false l n (by simpa [DataFrame.columns] using hc)]
    simp [-List.find?_map]

theorem get_setCol_ne (df : DataFrame) (n m : String) (vals : List Cell) (h : m ≠ n) :
    (df.setCol n vals).get m = df.get m := by
  rcases df with ⟨l⟩
  unfold DataFrame.setCol
  by_cases hc : (DataFrame.columns ⟨l⟩).contains n = true
  · rw [if_pos hc]
    simp only [DataFrame.get]
    rw [find_replace_ne l n m vals h]
  · rw [if_neg hc]
    simp only [DataFrame.get]
    rw [List.find?_append]
    rw [show ([(n, vals)].find? (fun c => c.fst == m)) = none from by
      simp [-List.find?_map, beq_iff_eq]
      exact fun he => h he.symm]
    rw [Option.or_none]

theorem get_mk_review (X Y : List Cell) :
    (DataFrame.mk [("review", X), ("sentiment score", Y)]).get "review" = X := rfl

theorem get_mk_score (X Y : List Cell) :
    (DataFrame.mk [("review", X), ("sentiment score", Y)]).get "sentiment score" = Y := rfl

theorem C3_output_shape :
    (∀ (env : BatchEnv) (p m o : String) (df : DataFrame) (results : List ClsResult),
      env.isFile p = true →
      (models.map Prod.fst).contains m = true →
      env.isDir o = true →
      env.readCsv p = .ok df →
      df.columns.contains "review" = true →
      (df.get "review").any Cell.isnull = false →
      env.pipeline ((lookupModel models m).getD "") = .ok () →
      env.classifier (df.get "review") = .ok results →
      results.length = (df.get "review").length →
      (∀ (pa : String) (w : WriteCall), env.toCsv pa w = .ok ()) →
      ∃ w : WriteCall,
        analyze_sentiment env p m o =
          (.completed
            (pathJoin o (m ++ "_" ++ splitextRoot (basename p) ++ "_sentiment_scores.csv")),
           [.readInput, .loadModel ((lookupModel models m).getD ""), .runInference,
            .writeOutput
              (pathJoin o (m ++ "_" ++ splitextRoot (basename p) ++ "_sentiment_scores.csv"))
              w]) ∧
        w.sep = "," ∧ w.index = false ∧
        w.frame.columns = ["review", "sentiment score"] ∧
        w.frame.get "review" = df.get "review" ∧
        w.frame.get "sentiment score" = results.map (fun r => Cell.num r.score) ∧
        (w.frame.get "sentiment score").length = (df.get "review").length) ∧
    (∀ (env : GradioEnv) (file mc mid : String) (df : DataFrame) (results : List ClsResult),
      env.readCsv file = .ok df →
      df.columns.contains "review" = true →
      (df.get "review").any Cell.isnull = false →
      (df.get "review").all Cell.isValidText = true →
      lookupModel gradioModels mc = some mid →
      env.pipeline mid = .ok () →
      env.classifier (df.get "review") = .ok results →
      results.length = (df.get "review").length →
      (∀ (pa : String) (w : WriteCall), env.toCsv pa w = .ok ()) →
      ∃ w : WriteCall,
        classify_reviews env file mc =
          (.ret (some (pathJoin env.tempDir ("sentiment_results_" ++ mc ++ ".csv")))
            "Done! Download ready.",
           [.readInput, .loadModel mid, .runInference,
            .writeOutput (pathJoin env.tempDir ("sentiment_results_" ++ mc ++ ".csv")) w]) ∧
        w.sep = "," ∧ w.index = false ∧
        w.frame.columns = ["review", "sentiment score"] ∧
        w.frame.get "review" = df.get "review" ∧
        w.frame.get "sentiment score" = results.map (fun r => Cell.num r.score) ∧
        (w.frame.get "sentiment score").length = (df.get "review").length) := by
  constructor
  · intro env p m o df results hf hm hd h4 h5 h6 h7 h8 h9 h10
    refine ⟨⟨(df.setCol "sentiment score"
        (results.map (fun r => Cell.num r.score))).select ["review", "sentiment score"],
        ",", false⟩, ?_, rfl, rfl, rfl, ?_, ?_, ?_⟩
    · simp only [analyze_sentiment, h4, h7, h8, h10]
      rw [hf, hm, hd, h5, h6, h9]
      simp only [bne_self_eq_false]
      rfl
    · exact (get_mk_review _ _).trans
        (get_setCol_ne df "sentiment score" "review" _ (by decide))
    · exact (get_mk_score _ _).trans (get_setCol_self df "sentiment score" _)
    · rw [show ((df.setCol "sentiment score"
          (results.map (fun r => Cell.num r.score))).select
            ["review", "sentiment score"]).get "sentiment score"
          = results.map (fun r => Cell.num r.score) from
        (get_mk_score _ _).trans (get_setCol_self df "sentiment score" _)]
      rw [List.length_map]
      exact h9
  · intro env file mc mid df results h1 h2 h3 hv h5 h6 h7 h8 h9
    refine ⟨⟨(df.setCol "sentiment score"
        (results.map (fun r => Cell.num r.score))).select ["review", "sentiment score"],
        ",", false⟩, ?_, rfl, rfl, rfl, ?_, ?_, ?_⟩
    · simp only [classify_reviews, h1, h5, h6, h7, h9]
      rw [h2, h3, hv, h8]
      simp only [bne_self_eq_false]
      rfl
    · exact (get_mk_review _ _).trans
        (get_setCol_ne df "sentiment score" "review" _ (by decide))
    · exact (get_mk_score _ _).trans (get_setCol_self df "sentiment score" _)
    · rw [show ((df.setCol "sentiment score"
          (results.map (fun r => Cell.num r.score))).select
            ["review", "sentiment score"]).get "sentiment score"
          = results.map (fun r => Cell.num r.score) from
        (get_mk_score _ _).trans (get_setCol_self df "sentiment score" _)]
      rw [List.length_map]
      exact h8

theorem C3_witness :
    (∃ w : WriteCall,
      analyze_sentiment (batchEnvOf dfOkB) "data/reviews.csv" "distilbert" "out" =
        (.completed
          (pathJoin "out"
            ("distilbert" ++ "_" ++ splitextRoot (basename "data/reviews.csv") ++
              "_sentiment_scores.csv")),
         [.readInput, .loadModel ((lookupModel models "distilbert").getD ""), .runInference,
          .writeOutput
            (pathJoin "out"
              ("distilbert" ++ "_" ++ splitextRoot (basename "data/reviews.csv") ++
                "_sentiment_scores.csv"))
            w]) ∧
      w.sep = "," ∧ w.index = false ∧
      w.frame.columns = ["review", "sentiment score"] ∧
      w.frame.get "review" = dfOkB.get "review" ∧
      w.frame.get "sentiment score" =
        (stubResults (dfOkB.get "review")).map (fun r => Cell.num r.score) ∧
      (w.frame.get "sentiment score").length = (dfOkB.get "review").length) ∧
    (∃ w : WriteCall,
      classify_reviews (gradioEnvOf dfOkB) "up.csv" "DistilBERT" =
        (.ret (some (pathJoin (gradioEnvOf dfOkB).tempDir
            ("sentiment_results_" ++ "DistilBERT" ++ ".csv")))
          "Done! Download ready.",
         [.readInput, .loadModel "distilbert-base-uncased-finetuned-sst-2-english",
          .runInference,
          .writeOutput (pathJoin (gradioEnvOf dfOkB).tempDir
            ("sentiment_results_" ++ "DistilBERT" ++ ".csv")) w]) ∧
      w.sep = "," ∧ w.index = false ∧
      w.frame.columns = ["review", "sentiment score"] ∧
      w.frame.get "review" = dfOkB.get "review" ∧
      w.frame.get "sentiment score" =
        (stubResults (dfOkB.get "review")).map (fun r => Cell.num r.score) ∧
      (w.frame.get "sentiment score").length = (dfOkB.get "review").length) :=
  ⟨C3_output_shape.1 (batchEnvOf dfOkB) "data/reviews.csv" "distilbert" "out" dfOkB
     (stubResults (dfOkB.get "review")) rfl rfl rfl rfl rfl rfl rfl rfl rfl
     (fun _ _ => rfl),
   C3_output_shape.2 (gradioEnvOf dfOkB) "up.csv" "DistilBERT"
     "distilbert-base-uncased-finetuned-sst-2-english" dfOkB
     (stubResults (dfOkB.get "review")) rfl rfl rfl rfl rfl rfl rfl rfl
     (fun _ _ => rfl)⟩

end EmoEval
